import Mathlib

/-
Verification of the odm_25dmeshing reconstruction pipeline
(src/modules/odm_25dmeshing/src/Odm25dMeshing.cpp, the live VTK-based path).

The pipeline stages delegated to the VTK library (statistical outlier removal,
Shepard interpolation, anisotropic diffusion, greedy terrain decimation) are not
part of this repository; their models below are marked "Modelled from the spec".
Everything the repository itself fixes (parameter clamps, the triangle budget,
the iteration count expression, raster dimensions, the world transform
constants, the DSM export ordering) is translated directly from the source.
Double-precision values are embedded as rationals.
-/

namespace Odm25d

/-- From the source (parseArguments): `maxVertexCount = std::max<unsigned int>(maxVertexCount, 0)`,
a lower clamp at 0 (a no-op on an unsigned value). -/
def clampMaxVertexCount (v : Nat) : Nat := max v 0

/-- From the source (parseArguments): `resolution = std::min<double>(100000, std::max<double>(resolution, 0.00001))`. -/
def clampResolution (r : ℚ) : ℚ := min 100000 (max r (1 / 100000))

/-- From the source (buildMesh): `terrain->SetNumberOfTriangles(maxVertexCount * 2)`;
`maxVertexCount` is an `unsigned int`, so the product wraps modulo 2^32. -/
def triangleBudget (maxVertexCount : Nat) : Nat := (maxVertexCount * 2) % 2 ^ 32

/-- Truncation of a rational toward zero, the semantics of the C++
double-to-int conversion. -/
def ratTrunc (q : ℚ) : ℤ := if q < 0 then -Int.floor (-q) else Int.floor q

/-- From the source (buildMesh): `surfaceDiffusion->SetNumberOfIterations(resolution / 2.0)`;
the parameter of SetNumberOfIterations is an `int`, so the double value
`resolution / 2.0` is truncated toward zero. -/
def numberOfIterations (resolution : ℚ) : ℤ := ratTrunc (resolution / 2)

/-- Modelled from the spec words, for comparison with `numberOfIterations`:
"iterations (derived from resolution / 2, rounded, minimum 1)". -/
def roundedIterations (resolution : ℚ) : ℤ := max (round (resolution / 2)) 1

/-- From the source (buildMesh): `int width = ceil(extentX * resolution)`. -/
def rasterWidth (extentX resolution : ℚ) : ℤ := Int.ceil (extentX * resolution)

/-- From the source (buildMesh): `int height = ceil(extentY * resolution)`. -/
def rasterHeight (extentY resolution : ℚ) : ℤ := Int.ceil (extentY * resolution)

/-- From the source (buildMesh): the vtkPlaneSource is given `SetResolution(width, height)`
over a rectangle of side lengths `extentX` by `extentY` anchored at the bounding box
of the projected points, so grid sample (i, j) of the raster sits at planar offset
`(i * extentX / width, j * extentY / height)` from the bounding-box corner. -/
def cellCenter (extentX extentY resolution : ℚ) (i j : Nat) : ℚ × ℚ :=
  ((i : ℚ) * extentX / ((rasterWidth extentX resolution : ℤ) : ℚ),
   (j : ℚ) * extentY / ((rasterHeight extentY resolution : ℤ) : ℚ))

/-- Point of the cloud: (x, y, z) coordinates. After the planar squash the z
component carries the elevation attribute of a projected point. -/
structure Point3 where
  x : ℚ
  y : ℚ
  z : ℚ
  deriving DecidableEq, Inhabited

/-- Squared Euclidean distance between two cloud points (the square root of a
rational is not rational; every statement below is parametric in the metric, and
this squared distance is the canonical computable instantiation). -/
def dist2 (p q : Point3) : ℚ :=
  (p.x - q.x) ^ 2 + (p.y - q.y) ^ 2 + (p.z - q.z) ^ 2

/-- Squared planar distance from a grid sample position to a projected point. -/
def plan2 (c : ℚ × ℚ) (s : Point3) : ℚ :=
  (c.1 - s.x) ^ 2 + (c.2 - s.y) ^ 2

/-- Default point used with List.getD. -/
def dflt : Point3 := ⟨0, 0, 0⟩

/-- Insert a rational into an ascending list, keeping it ascending. -/
def insertAsc (x : ℚ) : List ℚ → List ℚ
  | [] => [x]
  | y :: ys => if x ≤ y then x :: y :: ys else y :: insertAsc x ys

/-- Ascending insertion sort, used to select the k smallest neighbor distances. -/
def sortAsc : List ℚ → List ℚ
  | [] => []
  | x :: xs => insertAsc x (sortAsc xs)

/-- Modelled from the spec: the distances from point number i of the cloud to
every other point, under the metric d (§4.1; the spatial index and metric live
in the external VTK filter vtkStatisticalOutlierRemoval, not in this repository). -/
def distsToOthers (d : Point3 → Point3 → ℚ) (pts : List Point3) (i : Nat) : List ℚ :=
  ((List.range pts.length).filter (fun j => j != i)).map
    (fun j => d (pts.getD i dflt) (pts.getD j dflt))

/-- Modelled from the spec: the mean distance from point number i to its k
nearest neighbors in the cloud (§4.1). -/
def meanKDist (d : Point3 → Point3 → ℚ) (k : Nat) (pts : List Point3) (i : Nat) : ℚ :=
  ((sortAsc (distsToOthers d pts i)).take k).sum / (k : ℚ)

/-- Modelled from the spec: the list of per-point mean neighbor distances over
the whole cloud (§4.1). -/
def perPointMeanDists (d : Point3 → Point3 → ℚ) (k : Nat) (pts : List Point3) : List ℚ :=
  (List.range pts.length).map (meanKDist d k pts)

/-- Modelled from the spec: the global mean of the per-point mean neighbor
distances (§4.1). -/
def mu (d : Point3 → Point3 → ℚ) (k : Nat) (pts : List Point3) : ℚ :=
  (perPointMeanDists d k pts).sum / (pts.length : ℚ)

/-- Modelled from the spec: the population variance of the per-point mean
neighbor distances; the standard deviation of §4.1 is its square root. -/
def sigma2 (d : Point3 → Point3 → ℚ) (k : Nat) (pts : List Point3) : ℚ :=
  ((perPointMeanDists d k pts).map (fun m => (m - mu d k pts) ^ 2)).sum / (pts.length : ℚ)

/-- Modelled from the spec: point number i is an outlier when its mean neighbor
distance m exceeds mu + f * sigma. Stated without square roots: for f at or above 0
this holds exactly when mu is below m and f^2 * variance is below (m - mu)^2. -/
def isOutlier (d : Point3 → Point3 → ℚ) (k : Nat) (f : ℚ) (pts : List Point3) (i : Nat) : Bool :=
  decide (mu d k pts < meanKDist d k pts i ∧
    f ^ 2 * sigma2 d k pts < (meanKDist d k pts i - mu d k pts) ^ 2)

/-- Modelled from the spec: the indices of the points the Outlier Filter keeps (§4.1). -/
def keptIndices (d : Point3 → Point3 → ℚ) (k : Nat) (f : ℚ) (pts : List Point3) : List Nat :=
  (List.range pts.length).filter (fun i => ! isOutlier d k f pts i)

/-- Modelled from the spec: the point cloud the Outlier Filter keeps (§4.1). -/
def keptPoints (d : Point3 → Point3 → ℚ) (k : Nat) (f : ℚ) (pts : List Point3) : List Point3 :=
  (keptIndices d k f pts).map (fun i => pts.getD i dflt)

/-- Modelled from the spec: the Outlier Filter stage (§4.1): with fewer than
k + 1 points it fails with InsufficientDataError, otherwise it returns the
cloud with the statistical outliers removed. The source wires k = 24 and
f = 1.5 into the external filter (buildMesh lines 516 and 517). -/
def outlierFilter (d : Point3 → Point3 → ℚ) (k : Nat) (f : ℚ) (pts : List Point3) :
    Except String (List Point3) :=
  if pts.length < k + 1 then Except.error "InsufficientDataError"
  else Except.ok (keptPoints d k f pts)

/-- A decimated mesh: vertex list plus triangle index triples. -/
structure Mesh where
  vertices : List Point3
  triangles : List (Nat × Nat × Nat)
  deriving DecidableEq, Inhabited

/-- The pipeline downstream of the Outlier Filter, abstracted as an arbitrary
total function rest from the surviving cloud to the final mesh; a filter
failure propagates and no mesh is produced (spec §7). -/
def pipelineAfterFilter (rest : List Point3 → Mesh) (d : Point3 → Point3 → ℚ)
    (k : Nat) (f : ℚ) (pts : List Point3) : Except String Mesh :=
  (outlierFilter d k f pts).map rest

/-- From the source (buildMesh line 545): `const float NODATA = -9999`, the
sentinel for cells with no usable input data. -/
def NODATA : ℚ := -9999

/-- Modelled from the spec: Shepard inverse-distance interpolation of one grid
cell from its candidate sources (§4.3; the implementation is the external
vtkShepardKernel with power parameter 2, wired in buildMesh line 575, which is
not in this repository). With power parameter 2 the weight 1 / distance^2 equals
1 / plan2, so the value is rational. A candidate at planar distance 0 is an
exact match (weight 1, every other weight 0); no candidates yields NODATA. -/
def shepardElevation (c : ℚ × ℚ) (sources : List Point3) : ℚ :=
  match sources.find? (fun s => decide (plan2 c s = 0)) with
  | some s => s.z
  | none =>
    match sources with
    | [] => NODATA
    | _ :: _ =>
      ((sources.map (fun s => s.z / plan2 c s)).sum) /
        ((sources.map (fun s => 1 / plan2 c s)).sum)

/-- The 8-connected stencil of the diffusion (spec §4.4: 4 face neighbors and 4
corner neighbors). -/
def stencilOffsets : List (ℤ × ℤ) :=
  [(-1, -1), (-1, 0), (-1, 1), (0, -1), (0, 1), (1, -1), (1, 0), (1, 1)]

/-- Modelled from the spec: the stencil neighbors of cell (i, j) that lie inside
the width by height grid (§4.4: boundary cells use a reduced stencil, no
wrap-around). -/
def neighborsOf (w h : Nat) (i j : Nat) : List (Nat × Nat) :=
  stencilOffsets.filterMap (fun o =>
    if 0 ≤ (i : ℤ) + o.1 ∧ (i : ℤ) + o.1 < (w : ℤ) ∧ 0 ≤ (j : ℤ) + o.2 ∧ (j : ℤ) + o.2 < (h : ℤ)
    then some (((i : ℤ) + o.1).toNat, ((j : ℤ) + o.2).toNat)
    else none)

/-- Modelled from the spec: the per-direction diffusion flux into a cell of
value u from a neighbor of value v (§4.4): factor * (v - u), suppressed to 0
when the jump magnitude exceeds the threshold, and 0 when the neighbor holds
NODATA. -/
def flux (factor thr u v : ℚ) : ℚ :=
  if v = NODATA then 0
  else if thr < |v - u| then 0
  else factor * (v - u)

/-- Modelled from the spec: one anisotropic diffusion sweep over the raster
(§4.4; the implementation is the external vtkImageAnisotropicDiffusion2D, wired
in buildMesh lines 623 to 633, which is not in this repository). A NODATA cell
propagates unchanged; every other cell adds the sum of the surviving neighbor
fluxes scaled by the stability factor. -/
def diffuseStep (factor thr scal : ℚ) (w h : Nat) (r : Nat → Nat → ℚ) (i j : Nat) : ℚ :=
  if r i j = NODATA then r i j
  else r i j + scal * ((neighborsOf w h i j).map (fun p => flux factor thr (r i j) (r p.1 p.2))).sum

/-- Modelled from the spec: the Surface Smoother, n diffusion sweeps (§4.4). -/
def diffuseIter (factor thr scal : ℚ) (w h : Nat) : Nat → (Nat → Nat → ℚ) → (Nat → Nat → ℚ)
  | 0, r => r
  | n + 1, r => diffuseIter factor thr scal w h n (diffuseStep factor thr scal w h r)

/-- Modelled from the spec: the Greedy Decimator loop (§4.5; the implementation
is the external vtkGreedyTerrainDecimation, configured in buildMesh lines 637 to
643, which is not in this repository). The state is the current triangle count
and the error table of the raster cells not yet inserted; it starts from the
2-triangle corner triangulation; each step stops when the count has reached the
budget, otherwise inserts the cell of maximum error unless that error is at or
below the negligible threshold eps; an insertion splits one triangle into three
(2 more triangles) and consumes the cell. The fuel is the number of remaining
candidate cells, which bounds the number of insertions. -/
def decimateAux (budget : Nat) (eps : ℚ) : Nat → List ℚ → Nat → Nat
  | 0, _, count => count
  | fuel + 1, errs, count =>
    if budget ≤ count then count
    else
      match errs.max? with
      | none => count
      | some m =>
        if m ≤ eps then count
        else decimateAux budget eps fuel (errs.erase m) (count + 2)

/-- Modelled from the spec: the triangle count the Greedy Decimator produces
from the error table errs under the triangle budget (§4.5); the initial
triangulation over the 4 raster corners has 2 triangles. -/
def decimate (budget : Nat) (eps : ℚ) (errs : List ℚ) : Nat :=
  decimateAux budget eps errs.length errs 2

/-- From the source (buildMesh lines 648 to 650): the scale component of the
world transform, `transform->Scale(extentX / width, extentY / height, 1)`. -/
def scaleStep (ex ey : ℚ) (w h : ℤ) (p : Point3) : Point3 :=
  ⟨p.x * (ex / (w : ℚ)), p.y * (ey / (h : ℚ)), p.z * 1⟩

/-- From the source (buildMesh lines 648 to 649): the translate component of the
world transform, `transform->Translate(-extentX / 2.0 + center[0], -extentY / 2.0 + center[1], 0)`. -/
def translateStep (ex ey cx cy : ℚ) (p : Point3) : Point3 :=
  ⟨p.x + (-ex / 2 + cx), p.y + (-ey / 2 + cy), p.z + 0⟩

/-- From the source (buildMesh lines 646 to 650): the affine map the vtkTransform
applies to each mesh vertex. The transform is built by calling Translate and
then Scale; a vtkTransform premultiplies by default, so the Scale added second
acts on the point first and the resulting map is
(i, j, e) to (i * extentX / width - extentX / 2 + cx, j * extentY / height - extentY / 2 + cy, e). -/
def worldTransformPoint (ex ey : ℚ) (w h : ℤ) (cx cy : ℚ) (p : Point3) : Point3 :=
  ⟨p.x * (ex / (w : ℚ)) + (-ex / 2 + cx),
   p.y * (ey / (h : ℚ)) + (-ey / 2 + cy),
   p.z⟩

/-- From the source (buildMesh lines 652 to 655): the vtkTransformFilter maps
every vertex of the decimated mesh and leaves the connectivity untouched. -/
def worldTransformMesh (ex ey : ℚ) (w h : ℤ) (cx cy : ℚ) (m : Mesh) : Mesh :=
  ⟨m.vertices.map (worldTransformPoint ex ey w h cx cy), m.triangles⟩

/-- The two data flow outputs of buildMesh that depend on the raster: the
optional DSM export and the raster handed to the decimator. -/
structure FlowOutputs where
  dsm : Option (Nat → Nat → ℚ)
  decimatorInput : Nat → Nat → ℚ

/-- From the source (buildMesh lines 613 to 633), in statement order: when
outputDsmFile is configured the raster image is written to the TIFF writer
first; only afterwards does the anisotropic diffusion filter run, reading the
image and producing a separate output that feeds the decimator. -/
def buildFlow (outputDsmFile : String) (factor thr scal : ℚ) (w h iters : Nat)
    (raster : Nat → Nat → ℚ) : FlowOutputs :=
  ⟨if outputDsmFile = "" then none else some raster,
   diffuseIter factor thr scal w h iters raster⟩

/-- Helper: once the triangle count has reached the budget the decimation loop
returns it unchanged. -/
theorem decimateAux_stop (budget : Nat) (eps : ℚ) (count : Nat) (h : budget ≤ count) :
    ∀ (fuel : Nat) (errs : List ℚ), decimateAux budget eps fuel errs count = count := by
  intro fuel errs
  cases fuel with
  | zero => rfl
  | succ n => rw [decimateAux, if_pos h]

/-- Helper: the decimation loop never passes an even budget when it starts at an
even count at or below the budget. -/
theorem decimateAux_le (budget : Nat) (eps : ℚ) (hb2 : 2 ∣ budget) :
    ∀ (fuel : Nat) (errs : List ℚ) (count : Nat), count ≤ budget → 2 ∣ count →
      decimateAux budget eps fuel errs count ≤ budget := by
  intro fuel
  induction fuel with
  | zero =>
    intro errs count hc _
    simpa [decimateAux] using hc
  | succ n ih =>
    intro errs count hc hdvd
    rw [decimateAux]
    split
    · exact hc
    · rename_i hlt
      split
      · exact hc
      · rename_i m hm
        split
        · exact hc
        · exact ih _ _ (by omega) (by omega)

/-- C1 counterexample: with maxVertexCount = 0 the configured budget is
0 * 2 = 0 triangles, yet the decimator output already holds the 2 triangles of
the initial corner triangulation, so the output exceeds the budget. -/
theorem decimate_budget_zero_exceeds :
    ¬ decimate (triangleBudget (clampMaxVertexCount 0)) 1 [1]
        ≤ triangleBudget (clampMaxVertexCount 0) := by
  decide

/-- C1 (amended): for every maxVertexCount from 1 up to 2^31 - 1 (so that the
unsigned product maxVertexCount * 2 does not wrap), every negligible-error
threshold and every error table of the smoothed raster, the Greedy Decimator
output has at most maxVertexCount * 2 triangles. -/
theorem decimate_count_le_budget (mvc : Nat) (h1 : 1 ≤ mvc) (h2 : mvc < 2 ^ 31)
    (eps : ℚ) (errs : List ℚ) :
    decimate (triangleBudget mvc) eps errs ≤ triangleBudget mvc := by
  have e31 : (2 : Nat) ^ 31 = 2147483648 := by norm_num
  have e32 : (2 : Nat) ^ 32 = 4294967296 := by norm_num
  have hb : triangleBudget mvc = mvc * 2 := by
    rw [triangleBudget]
    exact Nat.mod_eq_of_lt (by omega)
  rw [decimate, hb]
  exact decimateAux_le (mvc * 2) eps ⟨mvc, by ring⟩ _ _ 2 (by omega) ⟨1, rfl⟩

/-- C1 witness. -/
theorem decimate_count_le_budget_witness :
    1 ≤ 1 ∧ 1 < 2 ^ 31 ∧ decimate (triangleBudget 1) 0 [1] ≤ triangleBudget 1 :=
  ⟨Nat.le_refl 1, by norm_num, decimate_count_le_budget 1 (Nat.le_refl 1) (by norm_num) 0 [1]⟩

/-- C2 counterexample: with maxVertexCount = 0 the budget handed to the
decimator is 0 triangles, not an unbounded default, and the decimator stops at
the initial 2-triangle mesh even when large cell errors remain. -/
theorem maxVertexCount_zero_budget_zero :
    triangleBudget (clampMaxVertexCount 0) = 0 ∧
    decimate (triangleBudget (clampMaxVertexCount 0)) (1 / 100) [1, 2, 3] = 2 := by
  constructor
  · decide
  · decide

/-- C2 (amended): maxVertexCount = 0 receives no special treatment: the budget
passed to the decimator is maxVertexCount * 2 = 0, and under a 0 budget the
decimation loop never inserts a vertex, leaving exactly the 2 initial
triangles whatever the error table holds. -/
theorem maxVertexCount_zero_minimal_mesh :
    triangleBudget (clampMaxVertexCount 0) = 0 ∧
    ∀ (eps : ℚ) (errs : List ℚ),
      decimate (triangleBudget (clampMaxVertexCount 0)) eps errs = 2 := by
  have hb : triangleBudget (clampMaxVertexCount 0) = 0 := by decide
  refine ⟨hb, ?_⟩
  intro eps errs
  rw [hb, decimate]
  exact decimateAux_stop 0 eps 2 (Nat.zero_le 2) _ _

/-- Helper: the clamped resolution is positive. -/
theorem clampResolution_pos (r : ℚ) : 0 < clampResolution r := by
  rw [clampResolution]
  apply lt_min
  · norm_num
  · exact lt_of_lt_of_le (by norm_num) (le_max_right r (1 / 100000))

/-- C3 counterexample: for resolution = 1 (within the clamp range) the iteration
count handed to the smoother is 0, while the spec formula rounded-with-minimum-1
gives 1; the smoother therefore runs no iteration at all. -/
theorem iterations_resolution_one_zero :
    numberOfIterations (clampResolution 1) = 0 ∧ roundedIterations (clampResolution 1) = 1 := by
  constructor
  · norm_num [numberOfIterations, ratTrunc, clampResolution]
  · norm_num [roundedIterations, clampResolution, round_eq]

/-- C3 (amended): the iteration count passed to the Surface Smoother is the
truncation toward zero of resolution / 2 (the floor, since the clamped
resolution is positive) with no rounding and no minimum of 1; every resolution
below 2 yields 0 iterations. -/
theorem iterations_truncated (r : ℚ) :
    numberOfIterations (clampResolution r) = Int.floor (clampResolution r / 2) ∧
    (clampResolution r < 2 → numberOfIterations (clampResolution r) = 0) := by
  have hpos : 0 < clampResolution r := clampResolution_pos r
  have hnn : ¬ clampResolution r / 2 < 0 := not_lt.mpr (by positivity)
  constructor
  · rw [numberOfIterations, ratTrunc, if_neg hnn]
  · intro h2
    rw [numberOfIterations, ratTrunc, if_neg hnn]
    rw [Int.floor_eq_zero_iff]
    constructor
    · positivity
    · show clampResolution r / 2 < 1
      linarith

/-- C3 witness. -/
theorem iterations_truncated_witness :
    clampResolution 1 < 2 ∧ numberOfIterations (clampResolution 1) = 0 := by
  have h : clampResolution 1 < 2 := by norm_num [clampResolution]
  exact ⟨h, (iterations_truncated 1).2 h⟩

/-- C4: for every metric and every input cloud of fewer than
neighborCount + 1 = 25 points, the Outlier Filter stage fails with
InsufficientDataError and, whatever the downstream stages would compute, the
pipeline produces no output mesh. -/
theorem outlierFilter_insufficient_data (d : Point3 → Point3 → ℚ) (pts : List Point3)
    (h : pts.length < 25) :
    outlierFilter d 24 (3 / 2) pts = Except.error "InsufficientDataError" ∧
    ∀ (rest : List Point3 → Mesh),
      pipelineAfterFilter rest d 24 (3 / 2) pts = Except.error "InsufficientDataError" := by
  have hc : pts.length < 24 + 1 := by omega
  constructor
  · rw [outlierFilter, if_pos hc]
  · intro rest
    rw [pipelineAfterFilter, outlierFilter, if_pos hc]
    rfl

/-- C4 witness. -/
theorem outlierFilter_insufficient_data_witness :
    ([] : List Point3).length < 25 ∧
    (outlierFilter dist2 24 (3 / 2) [] = Except.error "InsufficientDataError" ∧
      ∀ (rest : List Point3 → Mesh),
        pipelineAfterFilter rest dist2 24 (3 / 2) [] = Except.error "InsufficientDataError") :=
  ⟨by decide, outlierFilter_insufficient_data dist2 [] (by decide)⟩

/-- C5: for every metric and every cloud of at least 25 points the Outlier
Filter succeeds; its output is never longer than its input; and a point is
removed exactly when its mean distance to its 24 nearest neighbors exceeds
mu + (3/2) * sigma, both statistics taken over the original whole cloud (the
threshold comparison is stated in its square-root-free form: m exceeds
mu + f * sigma with f at or above 0 exactly when mu < m and
f^2 * variance < (m - mu)^2). -/
theorem outlierFilter_removal_spec (d : Point3 → Point3 → ℚ) (pts : List Point3)
    (h : 25 ≤ pts.length) :
    outlierFilter d 24 (3 / 2) pts = Except.ok (keptPoints d 24 (3 / 2) pts) ∧
    (keptPoints d 24 (3 / 2) pts).length ≤ pts.length ∧
    ∀ i, i < pts.length →
      (i ∉ keptIndices d 24 (3 / 2) pts ↔
        (mu d 24 pts < meanKDist d 24 pts i ∧
         (3 / 2 : ℚ) ^ 2 * sigma2 d 24 pts < (meanKDist d 24 pts i - mu d 24 pts) ^ 2)) := by
  refine ⟨?_, ?_, ?_⟩
  · rw [outlierFilter, if_neg (by omega)]
  · calc (keptPoints d 24 (3 / 2) pts).length
        = (keptIndices d 24 (3 / 2) pts).length := by rw [keptPoints, List.length_map]
      _ ≤ (List.range pts.length).length := List.length_filter_le _ _
      _ = pts.length := List.length_range _
  · intro i hi
    rw [keptIndices]
    simp [List.mem_filter, List.mem_range, hi, isOutlier, not_not]

/-- A concrete 25-point cloud. -/
def cloud25 : List Point3 := (List.range 25).map (fun n => ⟨(n : ℚ), 0, 0⟩)

/-- C5 witness. -/
theorem outlierFilter_removal_spec_witness :
    25 ≤ cloud25.length ∧
    (outlierFilter dist2 24 (3 / 2) cloud25 = Except.ok (keptPoints dist2 24 (3 / 2) cloud25) ∧
     (keptPoints dist2 24 (3 / 2) cloud25).length ≤ cloud25.length ∧
     ∀ i, i < cloud25.length →
       (i ∉ keptIndices dist2 24 (3 / 2) cloud25 ↔
         (mu dist2 24 cloud25 < meanKDist dist2 24 cloud25 i ∧
          (3 / 2 : ℚ) ^ 2 * sigma2 dist2 24 cloud25 <
            (meanKDist dist2 24 cloud25 i - mu dist2 24 cloud25) ^ 2))) :=
  ⟨by decide, outlierFilter_removal_spec dist2 cloud25 (by decide)⟩

/-- C6: the World Transform maps every decimated mesh vertex by first applying
the scale (extentX / width, extentY / height, 1) and then the translation
(-extentX / 2 + cx, -extentY / 2 + cy, 0); it is a total function (defined for
all parameter values) and the triangle list of the mesh is unchanged. -/
theorem worldTransform_scale_then_translate (ex ey cx cy : ℚ) (w h : ℤ) (m : Mesh) :
    worldTransformMesh ex ey w h cx cy m =
      ⟨m.vertices.map (fun p => translateStep ex ey cx cy (scaleStep ex ey w h p)),
       m.triangles⟩ := by
  have hf : worldTransformPoint ex ey w h cx cy =
      fun p => translateStep ex ey cx cy (scaleStep ex ey w h p) := by
    funext p
    simp [worldTransformPoint, translateStep, scaleStep, mul_one, add_zero]
  rw [worldTransformMesh, hf]

/-- C7 counterexample: with extentX = 3/2 and resolution = 1 the raster is 2
cells wide and the sample position of cell (1, 0) lies at planar offset 3/4 from
the bounding-box corner, not at 1 / resolution = 1: the grid spacing is
extentX / width, which differs from 1 / resolution whenever
extentX * resolution is not an integer. -/
theorem cellCenter_not_inverse_resolution :
    rasterWidth (3 / 2) 1 = 2 ∧ (cellCenter (3 / 2) 1 1 1 0).1 ≠ (1 : ℚ) / 1 := by
  have hw : rasterWidth (3 / 2) 1 = 2 := by
    rw [rasterWidth, Int.ceil_eq_iff] <;> norm_num
  refine ⟨hw, ?_⟩
  rw [cellCenter, hw]
  norm_num

/-- C7 (amended): the raster is width = ceil(extentX * resolution) by
height = ceil(extentY * resolution) cells and cell (i, j) samples the plane at
offset (i * extentX / width, j * extentY / height) from the bounding-box corner;
this equals (i / resolution, j / resolution) exactly when extentX * resolution
and extentY * resolution are integers (and the extents and resolution are
positive). -/
theorem raster_dimensions_cellCenter (ex ey res : ℚ) (i j : Nat)
    (hex : 0 < ex) (hey : 0 < ey) (hres : 0 < res)
    (hx : ex * res = ((rasterWidth ex res : ℤ) : ℚ))
    (hy : ey * res = ((rasterHeight ey res : ℤ) : ℚ)) :
    rasterWidth ex res = Int.ceil (ex * res) ∧
    rasterHeight ey res = Int.ceil (ey * res) ∧
    cellCenter ex ey res i j = ((i : ℚ) / res, (j : ℚ) / res) := by
  have hex0 : ex ≠ 0 := ne_of_gt hex
  have hey0 : ey ≠ 0 := ne_of_gt hey
  have hres0 : res ≠ 0 := ne_of_gt hres
  refine ⟨rfl, rfl, ?_⟩
  rw [cellCenter, ← hx, ← hy]
  refine Prod.ext ?_ ?_
  · show (i : ℚ) * ex / (ex * res) = (i : ℚ) / res
    field_simp
    ring
  · show (j : ℚ) * ey / (ey * res) = (j : ℚ) / res
    field_simp
    ring

/-- C7 witness. -/
theorem raster_dimensions_cellCenter_witness :
    (0 : ℚ) < 2 ∧ (0 : ℚ) < 3 ∧ (0 : ℚ) < 1 ∧
    (2 : ℚ) * 1 = ((rasterWidth 2 1 : ℤ) : ℚ) ∧
    (3 : ℚ) * 1 = ((rasterHeight 3 1 : ℤ) : ℚ) ∧
    (rasterWidth 2 1 = Int.ceil ((2 : ℚ) * 1) ∧
     rasterHeight 3 1 = Int.ceil ((3 : ℚ) * 1) ∧
     cellCenter 2 3 1 1 2 = ((1 : ℚ) / 1, (2 : ℚ) / 1)) := by
  have hw : rasterWidth 2 1 = 2 := by
    rw [rasterWidth, Int.ceil_eq_iff] <;> norm_num
  have hh : rasterHeight 3 1 = 3 := by
    rw [rasterHeight, Int.ceil_eq_iff] <;> norm_num
  have hx : (2 : ℚ) * 1 = ((rasterWidth 2 1 : ℤ) : ℚ) := by rw [hw]; norm_num
  have hy : (3 : ℚ) * 1 = ((rasterHeight 3 1 : ℤ) : ℚ) := by rw [hh]; norm_num
  exact ⟨by norm_num, by norm_num, by norm_num, hx, hy,
    raster_dimensions_cellCenter 2 3 1 1 2 (by norm_num) (by norm_num) (by norm_num) hx hy⟩

/-- Helper: the diffusion flux between two equal values vanishes, whatever the
factor and threshold. -/
theorem flux_self (factor thr u : ℚ) : flux factor thr u u = 0 := by
  simp [flux, sub_self, abs_zero, mul_zero, ite_self]

/-- Helper: one diffusion sweep leaves a flat raster unchanged. -/
theorem diffuseStep_flat (factor thr scal : ℚ) (w h : Nat) (r : Nat → Nat → ℚ) (c : ℚ)
    (hflat : ∀ i j, r i j = c) :
    diffuseStep factor thr scal w h r = r := by
  funext i j
  show diffuseStep factor thr scal w h r i j = r i j
  by_cases hnd : r i j = NODATA
  · rw [diffuseStep, if_pos hnd]
  · have hsum : ((neighborsOf w h i j).map
        (fun p => flux factor thr (r i j) (r p.1 p.2))).sum = 0 := by
      apply List.sum_eq_zero
      intro x hx
      obtain ⟨p, hp, hpe⟩ := List.mem_map.mp hx
      rw [← hpe, hflat i j, hflat p.1 p.2, flux_self]
    rw [diffuseStep, if_neg hnd, hsum, mul_zero, add_zero]

/-- C8: a perfectly flat raster (every cell holding the same value c) is a fixed
point of the anisotropic diffusion for every factor, threshold, stability scale,
grid size and iteration count. -/
theorem flat_raster_diffusion_fixed_point (factor thr scal : ℚ) (w h : Nat)
    (r : Nat → Nat → ℚ) (c : ℚ) (hflat : ∀ i j, r i j = c) (n : Nat) :
    diffuseIter factor thr scal w h n r = r := by
  induction n with
  | zero => rfl
  | succ k ih => rw [diffuseIter, diffuseStep_flat factor thr scal w h r c hflat, ih]

/-- A concrete flat raster of value 5. -/
def flatRaster : Nat → Nat → ℚ := fun _ _ => 5

/-- C8 witness. -/
theorem flat_raster_diffusion_fixed_point_witness :
    (∀ i j, flatRaster i j = 5) ∧ diffuseIter 1 (1 / 5) 1 4 4 3 flatRaster = flatRaster :=
  ⟨fun _ _ => rfl, flat_raster_diffusion_fixed_point 1 (1 / 5) 1 4 4 flatRaster 5 (fun _ _ => rfl) 3⟩

/-- C9: for every grid cell whose candidate sources include a point at planar
distance 0 from the sample position (all such zero-distance candidates carrying
the same elevation, as when the nearest source is unique), the interpolated cell
elevation equals that source elevation exactly. -/
theorem shepard_exact_match (c : ℚ × ℚ) (sources : List Point3) (s : Point3)
    (hmem : s ∈ sources) (hz : plan2 c s = 0)
    (huniq : ∀ t ∈ sources, plan2 c t = 0 → t.z = s.z) :
    shepardElevation c sources = s.z := by
  have hsome : (sources.find? (fun t => decide (plan2 c t = 0))).isSome := by
    rw [List.find?_isSome]
    exact ⟨s, hmem, by simp [hz]⟩
  obtain ⟨u, hu⟩ := Option.isSome_iff_exists.mp hsome
  have hu0 : plan2 c u = 0 := by
    have := List.find?_some hu
    simpa using this
  have humem : u ∈ sources := List.mem_of_find?_eq_some hu
  rw [shepardElevation.eq_def, hu]
  exact huniq u humem hu0

/-- C9 witness. -/
theorem shepard_exact_match_witness :
    (⟨0, 0, 7⟩ : Point3) ∈ [(⟨0, 0, 7⟩ : Point3), ⟨1, 0, 3⟩] ∧
    plan2 (0, 0) ⟨0, 0, 7⟩ = 0 ∧
    (∀ t ∈ [(⟨0, 0, 7⟩ : Point3), ⟨1, 0, 3⟩], plan2 (0, 0) t = 0 → t.z = (7 : ℚ)) ∧
    shepardElevation (0, 0) [⟨0, 0, 7⟩, ⟨1, 0, 3⟩] = 7 :=
  ⟨by decide, by norm_num [plan2], by norm_num [plan2],
   shepard_exact_match (0, 0) [⟨0, 0, 7⟩, ⟨1, 0, 3⟩] ⟨0, 0, 7⟩ (by decide)
     (by norm_num [plan2]) (by norm_num [plan2])⟩

/-- C10: whenever a DSM output path is configured, the exported raster is
exactly the interpolated raster before any smoothing: the diffusion stage only
feeds the decimator, so the written DSM is unaffected by it for every raster,
every diffusion parameter and every iteration count. -/
theorem dsm_export_before_smoothing (path : String) (hpath : path ≠ "")
    (factor thr scal : ℚ) (w h iters : Nat) (raster : Nat → Nat → ℚ) :
    (buildFlow path factor thr scal w h iters raster).dsm = some raster ∧
    (buildFlow path factor thr scal w h iters raster).decimatorInput =
      diffuseIter factor thr scal w h iters raster := by
  constructor
  · rw [buildFlow]
    exact if_neg hpath
  · rfl

/-- C10 witness. -/
theorem dsm_export_before_smoothing_witness :
    ("dsm.tif" : String) ≠ "" ∧
    ((buildFlow "dsm.tif" 1 (1 / 5) 1 4 4 3 flatRaster).dsm = some flatRaster ∧
     (buildFlow "dsm.tif" 1 (1 / 5) 1 4 4 3 flatRaster).decimatorInput =
       diffuseIter 1 (1 / 5) 1 4 4 3 flatRaster) :=
  ⟨by decide, dsm_export_before_smoothing "dsm.tif" (by decide) 1 (1 / 5) 1 4 4 3 flatRaster⟩

end Odm25d
